import Mathlib

/-!
Verification of the FlowTrack billing / reporting-window / aggregation logic.

The definitions below are shallow embeddings of the TypeScript source:
  - the per-user billing record and the entitlement check from
    src/app/dashboard/page.tsx (lines 225-249),
  - the Stripe webhook handler from src/app/api/stripe/webhook/route.ts,
  - the reporting-window state and resolution from src/app/dashboard/page.tsx
    (lines 411-658), and
  - the budget-usage and spending-ratio helpers from src/app/dashboard/page.tsx
    and src/unnamed/part_002.

Calendar days and millisecond timestamps are modelled as integers; ISO date
strings compare lexicographically exactly as their day numbers compare, so
date arithmetic and comparisons translate to integer arithmetic. Monetary
amounts are modelled as rationals.
-/

namespace FlowTrack

/-- Per-user billing record: one row of the profiles table, as read by the
dashboard and written by the webhook handler. -/
structure Profile where
  plan : String
  stripeCustomerId : Option String
  stripeSubscriptionId : Option String
  stripeSubscriptionStatus : Option String
  proGraceUntil : Option Int
deriving DecidableEq, Repr

/-- JavaScript String.prototype.trim: drop leading and trailing whitespace. -/
def jsTrim (s : String) : String :=
  ⟨((s.data.dropWhile Char.isWhitespace).reverse.dropWhile Char.isWhitespace).reverse⟩

/-- JavaScript String.prototype.toLowerCase, restricted to the ASCII plan
strings stored by this application. -/
def jsToLower (s : String) : String :=
  ⟨s.data.map Char.toLower⟩

/-- Entitlement check from src/app/dashboard/page.tsx lines 235-249:
plan is normalised with trim/toLowerCase; paidOk is status active or trialing;
inGrace is a non-null grace bound strictly after now; legacyPro is both billing
fields null. -/
def isPro (p : Profile) (now : Int) : Bool :=
  let plan := jsToLower (jsTrim p.plan)
  let inGrace :=
    match p.proGraceUntil with
    | some g => decide (now < g)
    | none => false
  let paidOk :=
    p.stripeSubscriptionStatus == some "active" ||
      p.stripeSubscriptionStatus == some "trialing"
  let legacyPro :=
    p.stripeSubscriptionStatus == none && p.proGraceUntil == none
  plan == "pro" && (paidOk || inGrace || legacyPro)

/-- Preset day options offered by the dashboard (line 256):
DAY_OPTIONS = isPro ? [7, 14, 30, 60, 90, 120] : [7, 14, 30]. -/
def DAY_OPTIONS (pro : Bool) : List Nat :=
  if pro then [7, 14, 30, 60, 90, 120] else [7, 14, 30]

/-- Whether the report is in preset (rolling last-N-days) or custom mode
(dashboard state rangeMode, line 419). -/
inductive RangeMode where
  | preset
  | custom
deriving DecidableEq, Repr

/-- The window-related dashboard state: the selected preset day count and the
applied custom range (lines 419-425, 257). -/
structure WindowState where
  windowDays : Nat
  rangeMode : RangeMode
  appliedStart : Option Int
  appliedEnd : Option Int
deriving DecidableEq, Repr

/-- usingCustomRange from line 445: rangeMode is custom and both applied
bounds are present. -/
def usingCustomRange (st : WindowState) : Bool :=
  match st.rangeMode, st.appliedStart, st.appliedEnd with
  | .custom, some _, some _ => true
  | _, _, _ => false

/-- periodStart from lines 434-448: the applied custom start when a custom
range is active, otherwise today - (windowDays - 1). -/
def periodStart (today : Int) (st : WindowState) : Int :=
  if usingCustomRange st then st.appliedStart.getD 0
  else today - ((st.windowDays : Int) - 1)

/-- periodEnd from line 449: the applied custom end when a custom range is
active, otherwise today. -/
def periodEnd (today : Int) (st : WindowState) : Int :=
  if usingCustomRange st then st.appliedEnd.getD 0 else today

/-- Plan lookback limit from line 635: planMaxDays = isPro ? 120 : 30. -/
def planMaxDays (pro : Bool) : Int :=
  if pro then 120 else 30

/-- Earliest date the plan allows, from lines 637-642:
planWindowStart = today - (planMaxDays - 1). -/
def planWindowStart (pro : Bool) (today : Int) : Int :=
  today - (planMaxDays pro - 1)

/-- Custom-range application from handleApplyCustomRange (lines 607-632),
restricted to the computation on the two dates: swap if supplied reversed,
clamp start up to planWindowStart, clamp end down to today. -/
def applyCustomRange (pro : Bool) (today : Int) (customStart customEnd : Int) :
    Int × Int :=
  let s := if customStart ≤ customEnd then customStart else customEnd
  let e := if customStart ≤ customEnd then customEnd else customStart
  let clampedStart := if s < planWindowStart pro today then planWindowStart pro today else s
  let clampedEnd := if e > today then today else e
  (clampedStart, clampedEnd)

/-- Preset values the plan-change effect keeps (line 526):
allowed = isPro ? [7, 14, 30, 60, 90] : [7, 14, 30]. -/
def allowedAfterPlanChange (pro : Bool) : List Nat :=
  if pro then [7, 14, 30, 60, 90] else [7, 14, 30]

/-- The windowDays clamp run when entitlement changes (lines 523-530): keep
the previous choice when still allowed, otherwise fall back to 90 (Pro) or
30 (Free). -/
def clampWindowDays (pro : Bool) (prev : Nat) : Nat :=
  if prev ∈ allowedAfterPlanChange pro then prev
  else if pro then 90 else 30

/-- Effect of a plan change on the window state (lines 523-530): only
windowDays is re-clamped; rangeMode and the applied custom bounds are not
touched. -/
def onPlanChange (pro : Bool) (st : WindowState) : WindowState :=
  { st with windowDays := clampWindowDays pro st.windowDays }

/-- Budget status classification from src/app/dashboard/page.tsx lines
2588-2595, with pct there being the raw ratio spent / budget. -/
def budgetStatus (spent budget : Rat) : String :=
  if budget ≤ 0 then "none"
  else if spent / budget > 1 then "over"
  else if spent / budget ≥ 4 / 5 then "near"
  else "ok"

/-- JavaScript Math.round: round half toward positive infinity. -/
def jsRound (q : Rat) : Int :=
  ⌊q + 1 / 2⌋

/-- Displayed percentage from src/unnamed/part_002 lines 1934-1939:
pct = budget > 0 ? Math.min(100, Math.round((spent / budget) * 100)) : 0. -/
def budgetPct (spent budget : Rat) : Int :=
  if budget > 0 then min 100 (jsRound (spent / budget * 100)) else 0

/-- getSpendingRatio from src/app/dashboard/page.tsx lines 121-125:
1 when income is non-positive, otherwise Math.min(Math.max(ratio, 0), 2). -/
def getSpendingRatio (income expenses : Rat) : Rat :=
  if income ≤ 0 then 1 else min (max (expenses / income) 0) 2

/-- The Stripe events the webhook handler branches on in
src/app/api/stripe/webhook/route.ts, as a closed tagged union; every other
event type falls into the unhandled constructor. Fields carry exactly the
data the handler reads off the payload. -/
inductive StripeEvent where
  | checkoutCompleted (userId customerId subscriptionId : Option String)
  | subscriptionCreated (userId : Option String) (customerId : Option String)
      (subId : String) (status : String)
  | subscriptionDeleted (userId : Option String) (status : String)
  | invoicePaymentFailed (subscriptionId : Option String)
  | invoicePaymentSucceeded (subscriptionId : Option String)
  | unhandled (eventType : String)
deriving DecidableEq, Repr

/-- The data the handler reads from stripe.subscriptions.retrieve: the
subscription id, its status string, and the userId carried in its metadata. -/
structure SubInfo where
  id : String
  status : String
  metadataUserId : Option String
deriving DecidableEq, Repr

/-- The profiles table, keyed by user id. -/
abbrev ProfileTable := List (String × Profile)

/-- Row lookup by user id (the supabase eq("id", userId) filter). -/
def lookupProfile : ProfileTable → String → Option Profile
  | [], _ => none
  | (k, p) :: rest, uid => if k = uid then some p else lookupProfile rest uid

/-- Replace the row with the given id, or insert it when absent. -/
def setProfile : ProfileTable → String → Profile → ProfileTable
  | [], uid, p => [(uid, p)]
  | (k, q) :: rest, uid, p =>
      if k = uid then (uid, p) :: rest else (k, q) :: setProfile rest uid p

/-- A supabase update(...).eq("id", uid): rewrites the matching row and is a
no-op (zero rows affected, no error) when no row matches. -/
def updateProfile (t : ProfileTable) (uid : String) (f : Profile → Profile) :
    ProfileTable :=
  match lookupProfile t uid with
  | some p => setProfile t uid (f p)
  | none => t

/-- Stripe-side subscription lookup by id. -/
def lookupSub : List (String × SubInfo) → String → Option SubInfo
  | [], _ => none
  | (k, s) :: rest, sid => if k = sid then some s else lookupSub rest sid

/-- The environment the handler runs in: whether STRIPE_WEBHOOK_SECRET is
configured, the Stripe subscription store, and the current time in
milliseconds (Date.now()). -/
structure Env where
  hasSecret : Bool
  subs : List (String × SubInfo)
  now : Int
deriving DecidableEq, Repr

/-- Three days in milliseconds, the grace window set on payment failure
(route.ts lines 182-184). -/
def graceDurationMs : Int := 3 * 24 * 60 * 60 * 1000

/-- Field update performed by the checkout.session.completed upsert
(route.ts lines 71-81): plan, customer id and subscription id are written;
status and grace are not in the column list, so an existing row keeps them. -/
def checkoutUpdate (cid sid : Option String) (p : Profile) : Profile :=
  { p with plan := "pro", stripeCustomerId := cid, stripeSubscriptionId := sid }

/-- Row inserted when the checkout upsert finds no existing row: only the
listed columns are set; the remaining columns take their null defaults. -/
def checkoutInsert (cid sid : Option String) : Profile :=
  { plan := "pro", stripeCustomerId := cid, stripeSubscriptionId := sid,
    stripeSubscriptionStatus := none, proGraceUntil := none }

/-- The upsert with onConflict id from the checkout branch. -/
def upsertCheckout (t : ProfileTable) (uid : String) (cid sid : Option String) :
    ProfileTable :=
  match lookupProfile t uid with
  | some p => setProfile t uid (checkoutUpdate cid sid p)
  | none => setProfile t uid (checkoutInsert cid sid)

/-- Field update of the customer.subscription.created branch
(route.ts lines 119-127). -/
def subCreatedUpdate (cid : Option String) (subId status : String)
    (p : Profile) : Profile :=
  { p with
    plan := "pro", stripeCustomerId := cid, stripeSubscriptionId := some subId,
    stripeSubscriptionStatus := some status }

/-- Field update of the customer.subscription.deleted branch
(route.ts lines 148-156). -/
def subDeletedUpdate (status : String) (p : Profile) : Profile :=
  { p with
    plan := "free", stripeSubscriptionId := none,
    stripeSubscriptionStatus := some status, proGraceUntil := none }

/-- Field update of the invoice.payment_failed branch (route.ts lines
186-193): store the subscription id and status and set the grace bound to
now plus three days; plan is not touched. -/
def paymentFailedUpdate (sub : SubInfo) (now : Int) (p : Profile) : Profile :=
  { p with
    stripeSubscriptionId := some sub.id,
    stripeSubscriptionStatus := some sub.status,
    proGraceUntil := some (now + graceDurationMs) }

/-- Field update of the invoice.payment_succeeded branch (route.ts lines
219-227): restore plan pro, store id and status, clear grace. -/
def paymentSucceededUpdate (sub : SubInfo) (p : Profile) : Profile :=
  { p with
    plan := "pro", stripeSubscriptionId := some sub.id,
    stripeSubscriptionStatus := some sub.status, proGraceUntil := none }

/-- The event dispatch of the webhook POST handler (route.ts lines 51-241),
run after signature verification succeeded. Returns the HTTP status and the
resulting profiles table. A retrieve of a subscription id unknown to Stripe
throws in the source, surfacing as a 500 with no write. -/
def handleEvent (env : Env) (table : ProfileTable) :
    StripeEvent → Nat × ProfileTable
  | .checkoutCompleted userId cid sid =>
      match userId with
      | none => (200, table)
      | some uid => (200, upsertCheckout table uid cid sid)
  | .subscriptionCreated userId cid subId status =>
      match userId with
      | none => (200, table)
      | some uid => (200, updateProfile table uid (subCreatedUpdate cid subId status))
  | .subscriptionDeleted userId status =>
      match userId with
      | none => (200, table)
      | some uid => (200, updateProfile table uid (subDeletedUpdate status))
  | .invoicePaymentFailed subscriptionId =>
      match subscriptionId with
      | none => (200, table)
      | some sid =>
          match lookupSub env.subs sid with
          | none => (500, table)
          | some sub =>
              match sub.metadataUserId with
              | none => (200, table)
              | some uid => (200, updateProfile table uid (paymentFailedUpdate sub env.now))
  | .invoicePaymentSucceeded subscriptionId =>
      match subscriptionId with
      | none => (200, table)
      | some sid =>
          match lookupSub env.subs sid with
          | none => (500, table)
          | some sub =>
              match sub.metadataUserId with
              | none => (200, table)
              | some uid => (200, updateProfile table uid (paymentSucceededUpdate sub))
  | .unhandled _ => (200, table)

/-- A webhook request as the handler sees it: presence of the
stripe-signature header, whether constructEvent accepts body and signature
against the shared secret, and the event the verified payload decodes to. -/
structure WebhookRequest where
  hasSignature : Bool
  signatureValid : Bool
  event : StripeEvent
deriving DecidableEq, Repr

/-- The full POST handler (route.ts lines 22-241): 500 when the secret is
missing, 400 when the signature header is absent or verification fails,
otherwise the event dispatch. -/
def handlePost (env : Env) (table : ProfileTable) (req : WebhookRequest) :
    Nat × ProfileTable :=
  if env.hasSecret = false then (500, table)
  else if req.hasSignature = false then (400, table)
  else if req.signatureValid = false then (400, table)
  else handleEvent env table req.event

/-- Classifier for events whose user cannot be resolved: no userId in the
event metadata, or an invoice event whose subscription metadata carries no
userId or a userId with no profiles row. -/
def userUnresolvable (env : Env) (table : ProfileTable) : StripeEvent → Bool
  | .checkoutCompleted none _ _ => true
  | .subscriptionCreated none _ _ _ => true
  | .subscriptionDeleted none _ => true
  | .invoicePaymentFailed none => true
  | .invoicePaymentFailed (some sid) =>
      match lookupSub env.subs sid with
      | some sub =>
          match sub.metadataUserId with
          | none => true
          | some uid => (lookupProfile table uid).isNone
      | none => false
  | .invoicePaymentSucceeded none => true
  | .invoicePaymentSucceeded (some sid) =>
      match lookupSub env.subs sid with
      | some sub =>
          match sub.metadataUserId with
          | none => true
          | some uid => (lookupProfile table uid).isNone
      | none => false
  | _ => false

theorem lookupProfile_setProfile_self (t : ProfileTable) (uid : String)
    (p : Profile) : lookupProfile (setProfile t uid p) uid = some p := by
  induction t with
  | nil => simp [setProfile, lookupProfile]
  | cons hd rest ih =>
      obtain ⟨k, q⟩ := hd
      by_cases h : k = uid
      · simp [setProfile, lookupProfile, h]
      · simp [setProfile, lookupProfile, h, ih]

theorem setProfile_setProfile_self (t : ProfileTable) (uid : String)
    (p q : Profile) : setProfile (setProfile t uid p) uid q = setProfile t uid q := by
  induction t with
  | nil => simp [setProfile]
  | cons hd rest ih =>
      obtain ⟨k, r⟩ := hd
      by_cases h : k = uid
      · simp [setProfile, h]
      · simp [setProfile, h, ih]

theorem updateProfile_idem (t : ProfileTable) (uid : String)
    (f : Profile → Profile) (hf : ∀ p, f (f p) = f p) :
    updateProfile (updateProfile t uid f) uid f = updateProfile t uid f := by
  unfold updateProfile
  cases h : lookupProfile t uid with
  | none => simp [h]
  | some p =>
      simp [h, lookupProfile_setProfile_self, setProfile_setProfile_self, hf]

theorem upsertCheckout_idem (t : ProfileTable) (uid : String)
    (cid sid : Option String) :
    upsertCheckout (upsertCheckout t uid cid sid) uid cid sid
      = upsertCheckout t uid cid sid := by
  unfold upsertCheckout
  cases h : lookupProfile t uid with
  | none =>
      simp [h, lookupProfile_setProfile_self, setProfile_setProfile_self,
        checkoutUpdate, checkoutInsert]
  | some p =>
      simp [h, lookupProfile_setProfile_self, setProfile_setProfile_self,
        checkoutUpdate]

/-- C1: for every stored billing record and time now, the Pro entitlement
predicate holds exactly when plan is pro and (status is active or trialing,
or graceUntil is non-null with now strictly before it, or both status and
graceUntil are null); in particular a pro record with status past_due and no
grace or expired grace is not entitled. -/
theorem isPro_spec (p : Profile) (now : Int) :
    (isPro p now = true ↔
      jsToLower (jsTrim p.plan) = "pro" ∧
        (p.stripeSubscriptionStatus = some "active" ∨
          p.stripeSubscriptionStatus = some "trialing" ∨
          (∃ g, p.proGraceUntil = some g ∧ now < g) ∨
          (p.stripeSubscriptionStatus = none ∧ p.proGraceUntil = none))) ∧
    (jsToLower (jsTrim p.plan) = "pro" →
      p.stripeSubscriptionStatus = some "past_due" →
      (∀ g, p.proGraceUntil = some g → g ≤ now) →
      isPro p now = false) := by
  constructor
  · cases hg : p.proGraceUntil <;> cases hs : p.stripeSubscriptionStatus <;>
      simp [isPro, hg, hs] <;> tauto
  · intro h1 h2 h3
    cases hg : p.proGraceUntil with
    | none => simp +decide [isPro, hg, h2]
    | some g =>
        have hge := h3 g hg
        simp +decide [isPro, hg, h2]
        omega

/-- C1 witness: a pro record with status past_due and null grace is not
entitled. -/
theorem isPro_spec_witness :
    isPro ⟨"pro", none, none, some "past_due", none⟩ 5 = false :=
  (isPro_spec ⟨"pro", none, none, some "past_due", none⟩ 5).2 (by decide) rfl
    (fun g hg => Option.noConfusion hg)

/-- C6: in preset mode, for every preset in the plan allowed set the resolved
window is start = today - (presetDays - 1), end = today, an inclusive range
of exactly presetDays days. -/
theorem preset_window_spec (pro : Bool) (d : Nat) (today : Int)
    (a b : Option Int) (hd : d ∈ DAY_OPTIONS pro) :
    periodStart today ⟨d, .preset, a, b⟩ = today - ((d : Int) - 1) ∧
    periodEnd today ⟨d, .preset, a, b⟩ = today ∧
    periodEnd today ⟨d, .preset, a, b⟩ - periodStart today ⟨d, .preset, a, b⟩ + 1
      = (d : Int) := by
  have hu : usingCustomRange ⟨d, .preset, a, b⟩ = false := by
    cases a <;> cases b <;> rfl
  refine ⟨?_, ?_, ?_⟩ <;> simp [periodStart, periodEnd, hu] <;> omega

/-- C6 witness: the 30-day preset on the Free plan spans exactly 30 days. -/
theorem preset_window_spec_witness :
    periodEnd 100 ⟨30, .preset, none, none⟩
      - periodStart 100 ⟨30, .preset, none, none⟩ + 1 = (30 : Int) :=
  (preset_window_spec false 30 100 none none (by decide)).2.2

/-- C7 counterexample: a Pro custom range lying entirely before the 120-day
lookback (today = 300, start = end = 100) is clamped to (181, 100), which is
not ordered, refuting that the applied range is always ordered and within
the plan window. -/
theorem applyCustomRange_counterexample :
    applyCustomRange true 300 100 100 = (181, 100) ∧ ¬((181 : Int) ≤ 100) := by
  refine ⟨?_, by decide⟩
  rfl

/-- C7 amended: the resolver swaps a reversed custom range, clamps start up
to today - 119 and end down to today; the result always satisfies
start at least today - 119 and end at most today, and it is ordered whenever
the supplied range intersects the plan window. -/
theorem applyCustomRange_amended (today cs ce : Int) :
    applyCustomRange true today cs ce = applyCustomRange true today ce cs ∧
    planWindowStart true today ≤ (applyCustomRange true today cs ce).1 ∧
    (applyCustomRange true today cs ce).2 ≤ today ∧
    ((planWindowStart true today ≤ cs ∨ planWindowStart true today ≤ ce) →
      (cs ≤ today ∨ ce ≤ today) →
      (applyCustomRange true today cs ce).1 ≤ (applyCustomRange true today cs ce).2) := by
  refine ⟨?_, ?_, ?_, fun h1 h2 => ?_⟩
  · simp [applyCustomRange, planWindowStart, planMaxDays, Prod.ext_iff]
    split_ifs <;> simp_all <;> omega
  · simp [applyCustomRange, planWindowStart, planMaxDays]
    split_ifs <;> omega
  · simp [applyCustomRange, planWindowStart, planMaxDays]
    split_ifs <;> omega
  · simp [applyCustomRange, planWindowStart, planMaxDays] at h1 h2 ⊢
    split_ifs <;> omega

/-- C7 amended witness: a reversed in-window range (today = 300, supplied as
250 then 200) is applied in order. -/
theorem applyCustomRange_amended_witness :
    (applyCustomRange true 300 250 200).1 ≤ (applyCustomRange true 300 250 200).2 :=
  (applyCustomRange_amended 300 250 200).2.2.2 (Or.inl (by decide))
    (Or.inl (by decide))

/-- C9: budget usage is classified none when no budget is set, over when the
raw ratio exceeds 1, near when the raw ratio is at least 0.8, ok otherwise;
the displayed pct is the percentage clamped to the range 0 to 100; and the
two scenario evaluations hold with the raw ratio driving the status. -/
theorem budgetUsage_spec (spent budget : Rat) :
    (budget ≤ 0 → budgetStatus spent budget = "none") ∧
    (0 < budget → 1 < spent / budget → budgetStatus spent budget = "over") ∧
    (0 < budget → spent / budget ≤ 1 → 4 / 5 ≤ spent / budget →
      budgetStatus spent budget = "near") ∧
    (0 < budget → spent / budget < 4 / 5 → budgetStatus spent budget = "ok") ∧
    (0 ≤ spent → 0 ≤ budgetPct spent budget ∧ budgetPct spent budget ≤ 100) ∧
    budgetStatus 850 1000 = "near" ∧ budgetPct 850 1000 = 85 ∧
    budgetStatus 1200 1000 = "over" ∧ budgetPct 1200 1000 = 100 ∧
    (1200 : Rat) / 1000 = 6 / 5 := by
  refine ⟨?_, ?_, ?_, ?_, ?_, ?_, ?_, ?_, ?_, ?_⟩
  · intro hb
    unfold budgetStatus
    split_ifs <;> first | rfl | linarith
  · intro hb h
    unfold budgetStatus
    split_ifs <;> first | rfl | linarith
  · intro hb h1 h2
    unfold budgetStatus
    split_ifs <;> first | rfl | linarith
  · intro hb h
    unfold budgetStatus
    split_ifs <;> first | rfl | linarith
  · intro hs
    unfold budgetPct
    split_ifs with hb
    · refine ⟨le_min (by norm_num) ?_, min_le_left _ _⟩
      unfold jsRound
      have hr : (0 : Rat) ≤ spent / budget * 100 :=
        mul_nonneg (div_nonneg hs (le_of_lt hb)) (by norm_num)
      exact Int.le_floor.mpr (by push_cast; linarith)
    · exact ⟨le_refl 0, by norm_num⟩
  · norm_num [budgetStatus]
  · norm_num [budgetPct, jsRound]
  · norm_num [budgetStatus]
  · norm_num [budgetPct, jsRound]
  · norm_num

/-- C9 witness: the two scenario inputs evaluate through the theorem with
their hypotheses discharged. -/
theorem budgetUsage_spec_witness :
    budgetStatus 850 1000 = "near" ∧
    (0 ≤ budgetPct 850 1000 ∧ budgetPct 850 1000 ≤ 100) ∧
    budgetStatus 0 0 = "none" :=
  ⟨(budgetUsage_spec 850 1000).2.2.1 (by norm_num) (by norm_num) (by norm_num),
   (budgetUsage_spec 850 1000).2.2.2.2.1 (by norm_num),
   (budgetUsage_spec 0 0).1 (by norm_num)⟩

/-- C10: the spending-ratio helper returns 1 when income is non-positive and
the clamped ratio otherwise, and its result always lies between 0 and 2. -/
theorem getSpendingRatio_spec (income expenses : Rat) :
    (income ≤ 0 → getSpendingRatio income expenses = 1) ∧
    (0 < income →
      getSpendingRatio income expenses = min (max (expenses / income) 0) 2) ∧
    0 ≤ getSpendingRatio income expenses ∧ getSpendingRatio income expenses ≤ 2 := by
  unfold getSpendingRatio
  split_ifs with h
  · exact ⟨fun _ => rfl, fun hpos => absurd hpos (not_lt.mpr h), by norm_num,
      by norm_num⟩
  · refine ⟨fun hle => absurd hle h, fun _ => rfl, ?_, min_le_right _ _⟩
    exact le_min (le_max_right _ _) (by norm_num)

/-- C10 witness: non-positive income yields exactly 1, and a positive-income
instance stays within the clamp bounds. -/
theorem getSpendingRatio_spec_witness :
    getSpendingRatio (-3) 7 = 1 ∧
    0 ≤ getSpendingRatio 10 25 ∧ getSpendingRatio 10 25 ≤ 2 :=
  ⟨(getSpendingRatio_spec (-3) 7).1 (by norm_num),
   (getSpendingRatio_spec 10 25).2.2.1,
   (getSpendingRatio_spec 10 25).2.2.2⟩

/-- C2 counterexample: applying CheckoutCompleted with a userId to a record
holding a live grace bound leaves the grace bound in place (99), not null,
refuting that the checkout transition clears the grace-period field. -/
theorem checkoutCompleted_grace_counterexample :
    (lookupProfile
      (handleEvent ⟨true, [], 0⟩ [("u", ⟨"free", none, none, some "past_due", some 99⟩)]
        (.checkoutCompleted (some "u") (some "c") (some "s"))).2 "u").map
          Profile.proGraceUntil = some (some 99) ∧
    some (some 99) ≠ some (none : Option Int) := by
  refine ⟨rfl, by decide⟩

/-- C2 amended: applying CheckoutCompleted with a userId sets plan to pro and
stores the customer and subscription ids of the event, but leaves the
subscription status and the grace-period field of an existing record
unchanged (the upsert column list does not include them), and returns 200. -/
theorem checkoutCompleted_spec (env : Env) (table : ProfileTable)
    (uid : String) (cid sid : Option String) (p : Profile)
    (hp : lookupProfile table uid = some p) :
    (handleEvent env table (.checkoutCompleted (some uid) cid sid)).1 = 200 ∧
    lookupProfile
      (handleEvent env table (.checkoutCompleted (some uid) cid sid)).2 uid
        = some { p with
                 plan := "pro", stripeCustomerId := cid,
                 stripeSubscriptionId := sid } := by
  refine ⟨rfl, ?_⟩
  simp [handleEvent, upsertCheckout, checkoutUpdate, hp,
    lookupProfile_setProfile_self]

/-- C2 amended witness: a concrete checkout on an existing free record with a
grace bound keeps the grace bound and status while switching plan to pro. -/
theorem checkoutCompleted_spec_witness :
    lookupProfile
      (handleEvent ⟨true, [], 7⟩ [("w", ⟨"free", none, none, none, some 42⟩)]
        (.checkoutCompleted (some "w") (some "cus") (some "sub"))).2 "w"
      = some ⟨"pro", some "cus", some "sub", none, some 42⟩ :=
  (checkoutCompleted_spec ⟨true, [], 7⟩ [("w", ⟨"free", none, none, none, some 42⟩)]
    "w" (some "cus") (some "sub") ⟨"free", none, none, none, some 42⟩ rfl).2

/-- C3: a webhook request with a missing or invalid signature gets a 400 and
leaves the stored table untouched; a validly signed request carrying an
unrecognized event type gets a 200 with the table untouched. -/
theorem webhook_signature_gate (env : Env) (table : ProfileTable)
    (req : WebhookRequest) (hsec : env.hasSecret = true) :
    ((req.hasSignature = false ∨ req.signatureValid = false) →
      handlePost env table req = (400, table)) ∧
    (∀ s, req.hasSignature = true → req.signatureValid = true →
      req.event = .unhandled s → handlePost env table req = (200, table)) := by
  constructor
  · intro h
    cases h with
    | inl h => simp [handlePost, hsec, h]
    | inr h =>
        cases hh : req.hasSignature <;> simp [handlePost, hsec, h, hh]
  · intro s h1 h2 he
    simp [handlePost, hsec, h1, h2, he, handleEvent]

/-- C3 witness: a signatureless request is rejected with 400 and no write,
and a validly signed unknown event type is acknowledged with 200. -/
theorem webhook_signature_gate_witness :
    handlePost ⟨true, [], 0⟩ [] ⟨false, false, .unhandled "x"⟩ = (400, []) ∧
    handlePost ⟨true, [], 0⟩ [] ⟨true, true, .unhandled "x"⟩ = (200, []) :=
  ⟨(webhook_signature_gate ⟨true, [], 0⟩ [] ⟨false, false, .unhandled "x"⟩ rfl).1
      (Or.inl rfl),
   (webhook_signature_gate ⟨true, [], 0⟩ [] ⟨true, true, .unhandled "x"⟩ rfl).2
      "x" rfl rfl rfl⟩

/-- C4: a validly signed event whose userId cannot be resolved (no userId in
the event metadata, or an invoice event whose subscription metadata has no
userId or a userId with no stored record) is acknowledged with 200 and the
stored table is unchanged. -/
theorem unresolvable_user_noop (env : Env) (table : ProfileTable)
    (e : StripeEvent) (hsec : env.hasSecret = true)
    (h : userUnresolvable env table e = true) :
    handlePost env table ⟨true, true, e⟩ = (200, table) := by
  have hev : handleEvent env table e = (200, table) := by
    cases e with
    | checkoutCompleted userId cid sid =>
        cases userId with
        | none => rfl
        | some uid => simp [userUnresolvable] at h
    | subscriptionCreated userId cid subId status =>
        cases userId with
        | none => rfl
        | some uid => simp [userUnresolvable] at h
    | subscriptionDeleted userId status =>
        cases userId with
        | none => rfl
        | some uid => simp [userUnresolvable] at h
    | invoicePaymentFailed subscriptionId =>
        cases subscriptionId with
        | none => rfl
        | some sid =>
            cases hs : lookupSub env.subs sid with
            | none => simp [userUnresolvable, hs] at h
            | some sub =>
                cases hm : sub.metadataUserId with
                | none => simp [handleEvent, hs, hm]
                | some uid =>
                    simp [userUnresolvable, hs, hm, Option.isNone_iff_eq_none] at h
                    simp [handleEvent, hs, hm, updateProfile, h]
    | invoicePaymentSucceeded subscriptionId =>
        cases subscriptionId with
        | none => rfl
        | some sid =>
            cases hs : lookupSub env.subs sid with
            | none => simp [userUnresolvable, hs] at h
            | some sub =>
                cases hm : sub.metadataUserId with
                | none => simp [handleEvent, hs, hm]
                | some uid =>
                    simp [userUnresolvable, hs, hm, Option.isNone_iff_eq_none] at h
                    simp [handleEvent, hs, hm, updateProfile, h]
    | unhandled s => simp [userUnresolvable] at h
  simp [handlePost, hsec, hev]

/-- C4 witness: a PaymentFailed event whose subscription resolves to a user
with no stored record is acknowledged with 200 and the table is unchanged. -/
theorem unresolvable_user_noop_witness :
    handlePost ⟨true, [("s1", ⟨"s1", "past_due", some "ghost"⟩)], 0⟩ []
      ⟨true, true, .invoicePaymentFailed (some "s1")⟩ = (200, []) :=
  unresolvable_user_noop ⟨true, [("s1", ⟨"s1", "past_due", some "ghost"⟩)], 0⟩ []
    (.invoicePaymentFailed (some "s1")) rfl (by decide)

/-- C5: for every stored table and every event, applying the event twice with
the same environment leaves the table exactly as applying it once. -/
theorem applyEvent_idempotent (env : Env) (table : ProfileTable)
    (e : StripeEvent) :
    (handleEvent env (handleEvent env table e).2 e).2
      = (handleEvent env table e).2 := by
  cases e with
  | checkoutCompleted userId cid sid =>
      cases userId with
      | none => rfl
      | some uid => simp [handleEvent, upsertCheckout_idem]
  | subscriptionCreated userId cid subId status =>
      cases userId with
      | none => rfl
      | some uid =>
          simp only [handleEvent]
          exact updateProfile_idem _ _ _ (fun p => rfl)
  | subscriptionDeleted userId status =>
      cases userId with
      | none => rfl
      | some uid =>
          simp only [handleEvent]
          exact updateProfile_idem _ _ _ (fun p => rfl)
  | invoicePaymentFailed subscriptionId =>
      cases subscriptionId with
      | none => rfl
      | some sid =>
          cases hs : lookupSub env.subs sid with
          | none => simp [handleEvent, hs]
          | some sub =>
              cases hm : sub.metadataUserId with
              | none => simp [handleEvent, hs, hm]
              | some uid =>
                  simp only [handleEvent, hs, hm]
                  exact updateProfile_idem _ _ _ (fun p => rfl)
  | invoicePaymentSucceeded subscriptionId =>
      cases subscriptionId with
      | none => rfl
      | some sid =>
          cases hs : lookupSub env.subs sid with
          | none => simp [handleEvent, hs]
          | some sub =>
              cases hm : sub.metadataUserId with
              | none => simp [handleEvent, hs, hm]
              | some uid =>
                  simp only [handleEvent, hs, hm]
                  exact updateProfile_idem _ _ _ (fun p => rfl)
  | unhandled s => rfl

/-- C8 counterexample: with an applied 120-day custom range active and the
plan dropping to Free (today = 300), the next resolution keeps start 181 even
though windowDays is re-clamped to 30 and the Free lookback begins at 271:
an out-of-entitlement window stays active. -/
theorem downgrade_custom_range_counterexample :
    (onPlanChange false ⟨90, .custom, some 181, some 300⟩).windowDays = 30 ∧
    usingCustomRange (onPlanChange false ⟨90, .custom, some 181, some 300⟩) = true ∧
    periodStart 300 (onPlanChange false ⟨90, .custom, some 181, some 300⟩) = 181 ∧
    periodStart 300 (onPlanChange false ⟨90, .custom, some 181, some 300⟩)
      < 300 - (planMaxDays false - 1) := by
  refine ⟨rfl, rfl, rfl, by decide⟩

/-- C8 amended: after a downgrade to Free, the next resolution re-clamps the
preset (windowDays falls back into the Free allowed set, so in preset mode
the period starts no earlier than today - 29), but the plan-change effect
does not touch the custom-range state: the range mode and the applied custom
bounds survive unchanged, so an active custom range is not re-clamped. -/
theorem downgrade_spec (today : Int) (st : WindowState) :
    (onPlanChange false st).windowDays ∈ allowedAfterPlanChange false ∧
    (usingCustomRange st = false →
      today - 29 ≤ periodStart today (onPlanChange false st) ∧
      periodEnd today (onPlanChange false st) = today) ∧
    (onPlanChange false st).rangeMode = st.rangeMode ∧
    (onPlanChange false st).appliedStart = st.appliedStart ∧
    (onPlanChange false st).appliedEnd = st.appliedEnd := by
  have hmem : (onPlanChange false st).windowDays ∈ allowedAfterPlanChange false := by
    show clampWindowDays false st.windowDays ∈ allowedAfterPlanChange false
    unfold clampWindowDays
    split_ifs <;> simp_all [allowedAfterPlanChange]
  have hsame : usingCustomRange (onPlanChange false st) = usingCustomRange st := by
    obtain ⟨w, r, a, b⟩ := st
    cases r <;> cases a <;> cases b <;> rfl
  refine ⟨hmem, ?_, rfl, rfl, rfl⟩
  intro hcu
  have hle : (onPlanChange false st).windowDays ≤ 30 := by
    simp [allowedAfterPlanChange] at hmem
    rcases hmem with h | h | h <;> omega
  constructor
  · simp [periodStart, hsame, hcu]
    omega
  · simp [periodEnd, hsame, hcu]

/-- C8 amended witness: a Free downgrade in preset mode with a stale 90-day
preset resolves to a period starting no earlier than today - 29. -/
theorem downgrade_spec_witness :
    (100 : Int) - 29 ≤ periodStart 100 (onPlanChange false ⟨90, .preset, none, none⟩) :=
  ((downgrade_spec 100 ⟨90, .preset, none, none⟩).2.1 rfl).1

end FlowTrack
